import Mathlib

/-!
A shallow embedding of the video-upload pipeline of tubelyTS
(`handlerUploadVideo`, `getVideoAspectRatio`, `processVideoForFastStart`,
`dbVideoToSignedVideo`), together with theorems checking the
natural-language specification against it.

External effects (the probe and remux subprocesses, the object store, the
record store, the filesystem) are modelled by an explicit environment of
outcomes threaded through the handler, which returns its result together
with a trace of the writes, uploads, record updates and deletion attempts
it performed.  JavaScript numbers appearing in the aspect-ratio
computation are modelled as exact rationals: every tolerance in play
(0.005 .. 0.02 against a band of 0.01) is many orders of magnitude above
double-precision rounding error, so the classification agrees with the
floating-point original on all inputs considered here.
-/

namespace Tubely

/-- The video record row.  The handlers in the source reference the fields
`id`, `userID`, `thumbnailURL` and `videoURL`; the record type itself
(`src/db/videos.ts`) is outside the given sources, so all remaining
columns are modelled by the single opaque field `rest`.
Modelled from the spec: the record store's row carries an owner id and a
stored video reference that outlives the request. -/
structure Video where
  id : String
  userID : String
  thumbnailURL : Option String
  videoURL : Option String
  rest : String
deriving DecidableEq

/-- The configuration values read by the upload handler. -/
structure ApiConfig where
  jwtSecret : String
  assetsRoot : String
  s3Bucket : String
  s3Region : String
deriving DecidableEq

/-- The multipart file part: `file.size` and `file.type` are the only
attributes the handler inspects before reading the bytes. -/
structure ReqFile where
  size : Nat
  mediaType : String
deriving DecidableEq

/-- The parts of the request the handler reads: the `videoId` path
parameter and the `video` form field (present as a `File` or not). -/
structure UploadRequest where
  videoId : Option String
  file : Option ReqFile
deriving DecidableEq

/-- Outcome of the cleanup-time filesystem operations in the `finally`
block: whether each scratch path still exists, and whether its deletion
throws. -/
structure CleanupEnv where
  tempExists : Bool
  tempDeleteThrows : Bool
  procExists : Bool
  procDeleteThrows : Bool
deriving DecidableEq

/-- Outcome of the external `ffprobe` invocation: its exit code, captured
stderr, and the stream geometry parsed from its JSON stdout (the
`streams` array restricted to width/height, one entry per selected video
stream; empty when the file has no video stream). -/
structure ProbeOutcome where
  exitCode : Nat
  stderr : String
  streams : List (Nat × Nat)
deriving DecidableEq

/-- Outcome of the external `ffmpeg` remux invocation. -/
structure RemuxOutcome where
  exitCode : Nat
  stderr : String
deriving DecidableEq

/-- The environment of one request: the authenticated user, the record
lookup result, the generated random name, and the outcomes of every
external effect the handler performs. -/
structure Env where
  userID : String
  lookup : Option Video
  randomString : String
  probe : ProbeOutcome
  remux : RemuxOutcome
  uploadOk : Bool
  cleanup : CleanupEnv
deriving DecidableEq

/-- Trace of the handler's externally visible actions: scratch files
created, object-store upload calls (key, local path, content type),
record-store updates, deletion attempts in cleanup, and whether cleanup
caught (and logged) an error. -/
structure Trace where
  scratch : List String
  s3Uploads : List (String × String × String)
  dbUpdates : List Video
  deletionsAttempted : List String
  cleanupErrorLogged : Bool
deriving DecidableEq

/-- The empty trace: nothing written, uploaded, updated or deleted. -/
def Trace.empty : Trace := ⟨[], [], [], [], false⟩

/-- The errors the handler can throw.  `badRequest`, `notFound` and
`userForbidden` mirror the error classes of the source; `probeFailure`,
`remuxFailure` and `uploadFailure` mirror the plain `Error`s thrown by
`getVideoAspectRatio`, `processVideoForFastStart` and the object-store
client. -/
inductive ProbeError where
  | nonZeroExit (exitCode : Nat) (stderr : String)
  | noVideoStream
deriving DecidableEq

inductive UploadError where
  | badRequest (msg : String)
  | notFound (msg : String)
  | userForbidden (msg : String)
  | probeFailure (e : ProbeError)
  | remuxFailure (exitCode : Nat) (stderr : String)
  | uploadFailure
deriving DecidableEq

instance : DecidableEq (Except UploadError Video) := fun a b =>
  match a, b with
  | .error e₁, .error e₂ =>
      if h : e₁ = e₂ then .isTrue (by rw [h]) else .isFalse (by simp [h])
  | .ok v₁, .ok v₂ =>
      if h : v₁ = v₂ then .isTrue (by rw [h]) else .isFalse (by simp [h])
  | .error _, .ok _ => .isFalse (by simp)
  | .ok _, .error _ => .isFalse (by simp)

/-- `const MAX_UPLOAD_SIZE = 1 << 30; // 1 GB` -/
def MAX_UPLOAD_SIZE : Nat := 2 ^ 30

/-- `const ALLOWED_THUMBNAIL_TYPES = ["video/mp4"];` -/
def ALLOWED_THUMBNAIL_TYPES : List String := ["video/mp4"]

/-- Models `path.join(dir, name)` for a plain directory prefix without a
trailing slash (the only shape the handler uses). -/
def pathJoin (dir name : String) : String :=
  if dir = "" then name else dir ++ "/" ++ name

/-- `Math.abs`, written as an executable conditional so that concrete
classifications evaluate in the kernel. -/
def mathAbs (r : ℚ) : ℚ := if r < 0 then -r else r

theorem mathAbs_eq_abs (r : ℚ) : mathAbs r = |r| := by
  by_cases h : r < 0
  · simp [mathAbs, h, abs_of_neg h]
  · simp [mathAbs, h, abs_of_nonneg (le_of_not_lt h)]

/-- The aspect-ratio classification at the end of `getVideoAspectRatio`:
`Math.abs(ratio - 16 / 9) < 0.01 ? "landscape" : Math.abs(ratio - 9 / 16) < 0.01 ? "portrait" : "other"`. -/
def classifyRatio (r : ℚ) : String :=
  if mathAbs (r - 16 / 9) < 0.01 then "landscape"
  else if mathAbs (r - 9 / 16) < 0.01 then "portrait"
  else "other"

/-- `getVideoAspectRatio`: if ffprobe exits non-zero, throw an `Error`
carrying the exit code and captured stderr; otherwise destructure
`data.streams[0]` — which throws when there is no video stream
(`streams` empty, modelled by `ProbeError.noVideoStream`) — and classify
`width / height`. -/
def getVideoAspectRatio (p : ProbeOutcome) : Except ProbeError String :=
  if p.exitCode ≠ 0 then .error (.nonZeroExit p.exitCode p.stderr)
  else
    match p.streams with
    | [] => .error .noVideoStream
    | (w, h) :: _ => .ok (classifyRatio ((w : ℚ) / (h : ℚ)))

/-- `processVideoForFastStart`: the output path is the input path plus the
fixed suffix `.processed.mp4`; a non-zero ffmpeg exit throws an `Error`
carrying the exit code and captured stderr, otherwise the output path is
returned. -/
def processVideoForFastStart (inputFilePath : String) (r : RemuxOutcome) :
    Except (Nat × String) String :=
  if r.exitCode ≠ 0 then .error (r.exitCode, r.stderr)
  else .ok (inputFilePath ++ ".processed.mp4")

/-- `dbVideoToSignedVideo`: `if (!video.videoURL) return video;` — a
falsy `videoURL` (null/undefined, modelled `none`, or the empty string)
returns the record unchanged; otherwise the URL is replaced by
`generatePresignedURL(cfg, video.videoURL, 5 * 60)`.  The presigner is an
external collaborator (`src/s3.ts` is outside the given sources) and is
passed in as an abstract function of the configuration, the key and the
TTL in seconds. -/
def dbVideoToSignedVideo (cfg : ApiConfig) (video : Video)
    (presign : ApiConfig → String → Nat → String) : Video :=
  match video.videoURL with
  | none => video
  | some url =>
      if url = "" then video
      else { video with videoURL := some (presign cfg url (5 * 60)) }

/-- The `finally` block of `handlerUploadVideo`: one `try { ... } catch`
wrapping both conditional deletions, so a throw while deleting the temp
file jumps to the `catch` (which only logs) and skips the processed-file
deletion.  Returns the list of paths whose deletion was attempted and
whether an error was caught and logged.  Errors never escape this block:
the `catch` swallows them. -/
def runCleanup (tempFilepath processedFilepath : String) (c : CleanupEnv) :
    List String × Bool :=
  if c.tempExists then
    if c.tempDeleteThrows then ([tempFilepath], true)
    else if c.procExists then
      if c.procDeleteThrows then ([tempFilepath, processedFilepath], true)
      else ([tempFilepath, processedFilepath], false)
    else ([tempFilepath], false)
  else if c.procExists then
    if c.procDeleteThrows then ([processedFilepath], true)
    else ([processedFilepath], false)
  else ([], false)

/-- Assembles a pipeline-body outcome with the unconditional cleanup of
the `finally` block.  Because `runCleanup` never throws, the body's
result passes through unchanged. -/
def finishWith (result : Except UploadError Video) (scratch : List String)
    (uploads : List (String × String × String)) (updates : List Video)
    (tempFilepath processedFilepath : String) (c : CleanupEnv) :
    Except UploadError Video × Trace :=
  let cl := runCleanup tempFilepath processedFilepath c
  (result, ⟨scratch, uploads, updates, cl.1, cl.2⟩)

/-- `s.split("/")`: splitting on the one-character separator, written
over the character list so that concrete instances evaluate. -/
def jsSplitSlash (s : String) : List String :=
  (s.toList.splitOn '/').map List.asString

/-- `file.type.split("/")[1]`: the extension taken from the media type
(`undefined` — modelled by the empty string — when there is no slash). -/
def extOf (file : ReqFile) : String :=
  List.getD (jsSplitSlash file.mediaType) 1 ""

/-- `path.join(cfg.assetsRoot, randomString + "." + ext)`: the staged
temp-file path. -/
def tempPathOf (cfg : ApiConfig) (env : Env) (file : ReqFile) : String :=
  pathJoin cfg.assetsRoot (env.randomString ++ "." ++ extOf file)

/-- The `try` body from `Bun.write` onwards plus the `finally` cleanup:
stage the bytes, probe, remux, upload under key
`aspectRatio + "/" + processedFilepath`, update the record's `videoURL`
to that key, and respond with the signed record.  `processedFilepath`
stays `""` until the remux returns, exactly as in the source. -/
def stagedRun (cfg : ApiConfig) (env : Env) (video : Video) (file : ReqFile)
    (presign : ApiConfig → String → Nat → String) :
    Except UploadError Video × Trace :=
  let tempFilepath := tempPathOf cfg env file
  match getVideoAspectRatio env.probe with
  | .error e =>
      finishWith (.error (.probeFailure e)) [tempFilepath] [] []
        tempFilepath "" env.cleanup
  | .ok aspect =>
      match processVideoForFastStart tempFilepath env.remux with
      | .error pe =>
          finishWith (.error (.remuxFailure pe.1 pe.2)) [tempFilepath] [] []
            tempFilepath "" env.cleanup
      | .ok processedFilepath =>
          let key := aspect ++ "/" ++ processedFilepath
          if env.uploadOk then
            let updated := { video with videoURL := some key }
            finishWith (.ok (dbVideoToSignedVideo cfg updated presign))
              [tempFilepath, processedFilepath]
              [(key, processedFilepath, "video/mp4")] [updated]
              tempFilepath processedFilepath env.cleanup
          else
            finishWith (.error .uploadFailure)
              [tempFilepath, processedFilepath]
              [(key, processedFilepath, "video/mp4")] []
              tempFilepath processedFilepath env.cleanup

/-- `handlerUploadVideo`: the guards in source order (missing `videoId`,
record lookup, ownership, missing file part, size limit, content type),
each thrown before any scratch file is created, then the staged pipeline
body with its unconditional cleanup. -/
def handlerUploadVideo (cfg : ApiConfig) (req : UploadRequest) (env : Env)
    (presign : ApiConfig → String → Nat → String) :
    Except UploadError Video × Trace :=
  match req.videoId with
  | none => (.error (.badRequest "Invalid video ID"), Trace.empty)
  | some _ =>
      match env.lookup with
      | none => (.error (.notFound "Couldn't find video"), Trace.empty)
      | some video =>
          if video.userID ≠ env.userID then
            (.error (.userForbidden "You do not have permission to modify this video"),
              Trace.empty)
          else
            match req.file with
            | none => (.error (.badRequest "No video file provided"), Trace.empty)
            | some file =>
                if file.size > MAX_UPLOAD_SIZE then
                  (.error (.badRequest "Video file is too large (max 1 GB)"), Trace.empty)
                else if ¬ ALLOWED_THUMBNAIL_TYPES.contains file.mediaType then
                  (.error (.badRequest "Unsupported thumbnail file type"), Trace.empty)
                else
                  stagedRun cfg env video file presign

/-- Modelled from the spec: the key scheme
`(aspectBucket)/(32-byte-random-base64url).mp4` — the aspect bucket
followed by the bare generated name. -/
def specUploadKey (aspectBucket randomString : String) : String :=
  aspectBucket ++ "/" ++ randomString ++ ".mp4"

/-- A request passing every guard: a `videoId` is present, the record
exists and is owned by the caller, the `video` form field is a file of
size within the limit and of an allowed media type. -/
def validUpload (req : UploadRequest) (env : Env) (video : Video)
    (file : ReqFile) : Prop :=
  (∃ vid, req.videoId = some vid) ∧ env.lookup = some video ∧
    video.userID = env.userID ∧ req.file = some file ∧
    file.size ≤ MAX_UPLOAD_SIZE ∧ file.mediaType = "video/mp4"

/-- The processed-file path produced by a successful remux of the staged
temp file. -/
def processedPathOf (cfg : ApiConfig) (env : Env) (file : ReqFile) : String :=
  tempPathOf cfg env file ++ ".processed.mp4"

/-- The object-store key a successful run uploads under, when the probe
reported first-stream geometry `w × h`. -/
def successKey (cfg : ApiConfig) (env : Env) (file : ReqFile) (w h : Nat) :
    String :=
  classifyRatio ((w : ℚ) / (h : ℚ)) ++ "/" ++ processedPathOf cfg env file

theorem handler_valid_eq (cfg : ApiConfig) (req : UploadRequest) (env : Env)
    (video : Video) (file : ReqFile)
    (presign : ApiConfig → String → Nat → String)
    (h : validUpload req env video file) :
    handlerUploadVideo cfg req env presign = stagedRun cfg env video file presign := by
  obtain ⟨⟨vid, hvid⟩, hlook, hown, hfile, hsize, htype⟩ := h
  simp only [handlerUploadVideo, hvid, hlook, hfile, hown]
  rw [if_neg (by simp), if_neg (Nat.not_lt.mpr hsize),
    if_neg (by simp [ALLOWED_THUMBNAIL_TYPES, htype])]

theorem stagedRun_success_eq (cfg : ApiConfig) (env : Env) (video : Video)
    (file : ReqFile) (presign : ApiConfig → String → Nat → String)
    (w h : Nat) (rest : List (Nat × Nat))
    (hpe : env.probe.exitCode = 0) (hs : env.probe.streams = (w, h) :: rest)
    (hre : env.remux.exitCode = 0) (hup : env.uploadOk = true) :
    stagedRun cfg env video file presign =
      (.ok (dbVideoToSignedVideo cfg
            { video with videoURL := some (successKey cfg env file w h) } presign),
        ⟨[tempPathOf cfg env file, processedPathOf cfg env file],
          [(successKey cfg env file w h, processedPathOf cfg env file, "video/mp4")],
          [{ video with videoURL := some (successKey cfg env file w h) }],
          (runCleanup (tempPathOf cfg env file) (processedPathOf cfg env file)
              env.cleanup).1,
          (runCleanup (tempPathOf cfg env file) (processedPathOf cfg env file)
              env.cleanup).2⟩) := by
  simp only [stagedRun, getVideoAspectRatio, hpe, hs, processVideoForFastStart, hre,
    hup, successKey, processedPathOf, finishWith, ite_true, ite_false]
  simp

theorem stagedRun_remuxfail_eq (cfg : ApiConfig) (env : Env) (video : Video)
    (file : ReqFile) (presign : ApiConfig → String → Nat → String)
    (w h : Nat) (rest : List (Nat × Nat))
    (hpe : env.probe.exitCode = 0) (hs : env.probe.streams = (w, h) :: rest)
    (hre : env.remux.exitCode ≠ 0) :
    stagedRun cfg env video file presign =
      (.error (.remuxFailure env.remux.exitCode env.remux.stderr),
        ⟨[tempPathOf cfg env file], [], [],
          (runCleanup (tempPathOf cfg env file) "" env.cleanup).1,
          (runCleanup (tempPathOf cfg env file) "" env.cleanup).2⟩) := by
  simp only [stagedRun, getVideoAspectRatio, hpe, hs, processVideoForFastStart,
    finishWith, ite_true, ite_false]
  simp [hre]

/-- C2: aspect classification computes ratio = width/height on the first
probed stream and classifies with the 0.01 tolerance band around 16/9
(landscape) and 9/16 (portrait), defaulting to other; the listed concrete
ratios classify as claimed. -/
theorem aspect_classification_rule :
    (∀ (p : ProbeOutcome) (w h : Nat) (rest : List (Nat × Nat)),
        p.exitCode = 0 → p.streams = (w, h) :: rest →
        getVideoAspectRatio p = .ok (classifyRatio ((w : ℚ) / (h : ℚ)))) ∧
    (∀ r : ℚ,
        classifyRatio r =
          if |r - 16 / 9| < 0.01 then "landscape"
          else if |r - 9 / 16| < 0.01 then "portrait" else "other") ∧
    classifyRatio (16 / 9) = "landscape" ∧
    classifyRatio (9 / 16) = "portrait" ∧
    classifyRatio 1 = "other" ∧
    classifyRatio (16 / 9 + 0.005) = "landscape" ∧
    classifyRatio (16 / 9 - 0.005) = "landscape" ∧
    classifyRatio (16 / 9 + 0.02) = "other" ∧
    classifyRatio (16 / 9 - 0.02) = "other" := by
  refine ⟨?_, ?_, ?_, ?_, ?_, ?_, ?_, ?_, ?_⟩
  · intro p w h rest hpe hs
    simp [getVideoAspectRatio, hpe, hs]
  · intro r
    simp only [classifyRatio, mathAbs_eq_abs]
  · unfold classifyRatio
    rw [if_pos (by norm_num [mathAbs])]
  · unfold classifyRatio
    rw [if_neg (by norm_num [mathAbs]), if_pos (by norm_num [mathAbs])]
  · unfold classifyRatio
    rw [if_neg (by norm_num [mathAbs]), if_neg (by norm_num [mathAbs])]
  · unfold classifyRatio
    rw [if_pos (by norm_num [mathAbs])]
  · unfold classifyRatio
    rw [if_pos (by norm_num [mathAbs])]
  · unfold classifyRatio
    rw [if_neg (by norm_num [mathAbs]), if_neg (by norm_num [mathAbs])]
  · unfold classifyRatio
    rw [if_neg (by norm_num [mathAbs]), if_neg (by norm_num [mathAbs])]

/-- C2 witness: the classification rule applied to a concrete probe
outcome with a 1920×1080 stream yields landscape. -/
theorem aspect_classification_rule_witness :
    getVideoAspectRatio ⟨0, "", [(1920, 1080)]⟩ =
      .ok (classifyRatio ((1920 : ℚ) / (1080 : ℚ))) :=
  aspect_classification_rule.1 ⟨0, "", [(1920, 1080)]⟩ 1920 1080 [] rfl rfl

/-- C5: probing fails exactly when the process exits non-zero or the
output has no video stream; the non-zero-exit failure carries the
captured stderr, and the no-stream case fails rather than classifying. -/
theorem probe_failure_iff :
    ∀ p : ProbeOutcome,
      ((∃ e, getVideoAspectRatio p = .error e) ↔ p.exitCode ≠ 0 ∨ p.streams = []) ∧
      (p.exitCode ≠ 0 →
        getVideoAspectRatio p = .error (.nonZeroExit p.exitCode p.stderr)) ∧
      (p.exitCode = 0 → p.streams = [] →
        getVideoAspectRatio p = .error .noVideoStream) := by
  intro p
  by_cases hpe : p.exitCode = 0
  · cases hstreams : p.streams with
    | nil => simp [getVideoAspectRatio, hpe, hstreams]
    | cons head tail =>
        obtain ⟨w, h⟩ := head
        simp [getVideoAspectRatio, hpe, hstreams]
  · simp [getVideoAspectRatio, hpe]

/-- C5 witness: a probe that exits with code 1 fails carrying that exit
code and its stderr. -/
theorem probe_failure_iff_witness :
    getVideoAspectRatio ⟨1, "boom", []⟩ = .error (.nonZeroExit 1 "boom") :=
  (probe_failure_iff ⟨1, "boom", []⟩).2.1 (by decide)

/-! Concrete fixtures used by the witnesses and counterexamples. -/

def cfg0 : ApiConfig := ⟨"secret", "assets", "bucket", "region"⟩

def video0 : Video := ⟨"v1", "u1", none, none, "other-columns"⟩

def file0 : ReqFile := ⟨100, "video/mp4"⟩

def req0 : UploadRequest := ⟨some "v1", some file0⟩

def probeOk : ProbeOutcome := ⟨0, "", [(1920, 1080)]⟩

def env0 : Env :=
  ⟨"u1", some video0, "RANDOMNAME", probeOk, ⟨0, ""⟩, true,
    ⟨true, false, true, false⟩⟩

def presign0 : ApiConfig → String → Nat → String :=
  fun _ key ttl => "signed:" ++ key ++ ":" ++ toString ttl

theorem validUpload0 : validUpload req0 env0 video0 file0 :=
  ⟨⟨"v1", rfl⟩, rfl, rfl, rfl, by decide, rfl⟩

theorem classify_1920_1080 :
    classifyRatio (((1920 : Nat) : ℚ) / ((1080 : Nat) : ℚ)) = "landscape" := by
  have hc : (((1920 : Nat) : ℚ) / ((1080 : Nat) : ℚ)) = 16 / 9 := by norm_num
  rw [hc]
  unfold classifyRatio
  rw [if_pos (by norm_num [mathAbs])]

/-- C4 counterexample: in a run where the staged temp file exists and its
deletion throws while the processed file also exists, cleanup attempts
only the temp path — the processed path is never attempted, because both
deletions sit inside one `try`/`catch`. -/
theorem cleanup_shortcircuit_counterexample :
    runCleanup "t" "p" ⟨true, true, true, false⟩ = (["t"], true) ∧
    "p" ∉ (runCleanup "t" "p" ⟨true, true, true, false⟩).1 := by decide

/-- C4 amended: deletion failures are caught and logged, never raised
(the logged flag tells exactly when a deletion threw); when the temp-file
deletion does not throw, every present path is attempted; but when the
temp-file deletion throws, cleanup short-circuits and only the temp path
was attempted. -/
theorem cleanup_amended :
    ∀ (t p : String) (c : CleanupEnv),
      (c.tempDeleteThrows = false →
        (runCleanup t p c).1 =
          (if c.tempExists then [t] else []) ++
            (if c.procExists then [p] else [])) ∧
      (c.tempExists = true → c.tempDeleteThrows = true →
        (runCleanup t p c).1 = [t] ∧ (runCleanup t p c).2 = true) ∧
      ((runCleanup t p c).2 = true ↔
        (c.tempExists = true ∧ c.tempDeleteThrows = true) ∨
          ((c.tempExists = false ∨ c.tempDeleteThrows = false) ∧
            c.procExists = true ∧ c.procDeleteThrows = true)) := by
  intro t p c
  obtain ⟨te, td, pe, pd⟩ := c
  cases te <;> cases td <;> cases pe <;> cases pd <;> simp [runCleanup]

/-- C4 witness: with both scratch files present and no deletion failure,
both paths are attempted. -/
theorem cleanup_amended_witness :
    (runCleanup "a" "b" ⟨true, false, true, false⟩).1 = ["a", "b"] := by
  have h := (cleanup_amended "a" "b" ⟨true, false, true, false⟩).1 rfl
  simpa using h

/-- C8 counterexample: a record whose stored key is present but equal to
the empty string is returned unchanged — its URL is not replaced by the
signed URL computed from that key — because `!video.videoURL` is truthy
for the empty string. -/
def presignX : ApiConfig → String → Nat → String :=
  fun _ key _ => "SIGNED:" ++ key

def videoEmptyURL : Video := ⟨"v2", "u2", none, some "", "other-columns"⟩

theorem sign_empty_key_counterexample :
    videoEmptyURL.videoURL = some "" ∧
    dbVideoToSignedVideo cfg0 videoEmptyURL presignX = videoEmptyURL ∧
    dbVideoToSignedVideo cfg0 videoEmptyURL presignX ≠
      { videoEmptyURL with videoURL := some (presignX cfg0 "" 300) } := by
  refine ⟨rfl, rfl, ?_⟩
  decide

/-- C8 amended: signing is a no-op returning the record unchanged when
the stored key is absent or the empty string; for every nonempty stored
key the record comes back with its URL replaced by the signed URL
computed from that key (with the fixed 300-second TTL). -/
theorem sign_noop_amended :
    ∀ (cfg : ApiConfig) (video : Video)
      (presign : ApiConfig → String → Nat → String),
      (video.videoURL = none → dbVideoToSignedVideo cfg video presign = video) ∧
      (video.videoURL = some "" →
        dbVideoToSignedVideo cfg video presign = video) ∧
      (∀ url, video.videoURL = some url → url ≠ "" →
        dbVideoToSignedVideo cfg video presign =
          { video with videoURL := some (presign cfg url 300) }) := by
  intro cfg video presign
  refine ⟨fun h => by simp [dbVideoToSignedVideo, h], fun h => by simp [dbVideoToSignedVideo, h], ?_⟩
  intro url hurl hne
  simp [dbVideoToSignedVideo, hurl, hne]

/-- C8 witness: a record with no stored key passes through signing
unchanged. -/
theorem sign_noop_amended_witness :
    dbVideoToSignedVideo cfg0 video0 presign0 = video0 :=
  (sign_noop_amended cfg0 video0 presign0).1 rfl

/-- C1 counterexample: on a successful run with assets root `assets`,
random name `RANDOMNAME` and a 1920×1080 stream, the uploaded key is
`landscape/assets/RANDOMNAME.mp4.processed.mp4` — the full local path of
the processed file prefixed by the bucket — not the spec's
`landscape/RANDOMNAME.mp4`, and the part after the bucket contains a
further slash, so it is not a single path segment. -/
theorem upload_key_counterexample :
    (handlerUploadVideo cfg0 req0 env0 presign0).2.s3Uploads =
      [("landscape/assets/RANDOMNAME.mp4.processed.mp4",
        "assets/RANDOMNAME.mp4.processed.mp4", "video/mp4")] ∧
    "landscape/assets/RANDOMNAME.mp4.processed.mp4" ≠
      specUploadKey "landscape" "RANDOMNAME" ∧
    ("assets/RANDOMNAME.mp4.processed.mp4".toList.contains '/') = true := by
  refine ⟨?_, by decide, by decide⟩
  rw [handler_valid_eq cfg0 req0 env0 video0 file0 presign0 validUpload0,
    stagedRun_success_eq cfg0 env0 video0 file0 presign0 1920 1080 [] rfl rfl rfl rfl]
  have hpp : processedPathOf cfg0 env0 file0 =
      "assets/RANDOMNAME.mp4.processed.mp4" := by decide
  simp only [successKey, hpp, classify_1920_1080]
  decide

/-- C1 amended: on every successful run the uploaded object key is the
aspect bucket followed by the full local processed-file path — the
assets root joined with the generated `.mp4` name plus the fixed
`.processed.mp4` suffix — not the bare generated name. -/
theorem upload_key_amended (cfg : ApiConfig) (req : UploadRequest) (env : Env)
    (video : Video) (file : ReqFile)
    (presign : ApiConfig → String → Nat → String)
    (w h : Nat) (rest : List (Nat × Nat))
    (hv : validUpload req env video file)
    (hpe : env.probe.exitCode = 0) (hs : env.probe.streams = (w, h) :: rest)
    (hre : env.remux.exitCode = 0) (hup : env.uploadOk = true) :
    (handlerUploadVideo cfg req env presign).2.s3Uploads =
      [(classifyRatio ((w : ℚ) / (h : ℚ)) ++ "/" ++
          (pathJoin cfg.assetsRoot (env.randomString ++ ".mp4") ++ ".processed.mp4"),
        pathJoin cfg.assetsRoot (env.randomString ++ ".mp4") ++ ".processed.mp4",
        "video/mp4")] := by
  rw [handler_valid_eq cfg req env video file presign hv,
    stagedRun_success_eq cfg env video file presign w h rest hpe hs hre hup]
  have hext : extOf file = "mp4" := by
    simp only [extOf, hv.2.2.2.2.2]
    decide
  have hdot : ("." : String) ++ "mp4" = ".mp4" := rfl
  simp [successKey, processedPathOf, tempPathOf, hext, String.append_assoc, hdot]

/-- C1 amended witness: the amended key equation at the concrete
successful run. -/
theorem upload_key_amended_witness :
    (handlerUploadVideo cfg0 req0 env0 presign0).2.s3Uploads =
      [(classifyRatio ((1920 : ℚ) / (1080 : ℚ)) ++ "/" ++
          (pathJoin cfg0.assetsRoot (env0.randomString ++ ".mp4") ++ ".processed.mp4"),
        pathJoin cfg0.assetsRoot (env0.randomString ++ ".mp4") ++ ".processed.mp4",
        "video/mp4")] :=
  upload_key_amended cfg0 req0 env0 video0 file0 presign0 1920 1080 []
    validUpload0 rfl rfl rfl rfl

/-- C3: when the remux exits non-zero on an otherwise valid staged run,
the handler propagates a remux failure carrying that exit code and the
captured stderr, performs no record update, and (when the cleanup
environment lets the deletions run) attempts deletion of every scratch
file allocated during the request. -/
theorem remux_failure_no_update_cleanup (cfg : ApiConfig) (req : UploadRequest)
    (env : Env) (video : Video) (file : ReqFile)
    (presign : ApiConfig → String → Nat → String)
    (w h : Nat) (rest : List (Nat × Nat))
    (hv : validUpload req env video file)
    (hpe : env.probe.exitCode = 0) (hs : env.probe.streams = (w, h) :: rest)
    (hre : env.remux.exitCode ≠ 0)
    (hte : env.cleanup.tempExists = true)
    (htd : env.cleanup.tempDeleteThrows = false) :
    (handlerUploadVideo cfg req env presign).1 =
      .error (.remuxFailure env.remux.exitCode env.remux.stderr) ∧
    (handlerUploadVideo cfg req env presign).2.dbUpdates = [] ∧
    ∀ p ∈ (handlerUploadVideo cfg req env presign).2.scratch,
      p ∈ (handlerUploadVideo cfg req env presign).2.deletionsAttempted := by
  rw [handler_valid_eq cfg req env video file presign hv,
    stagedRun_remuxfail_eq cfg env video file presign w h rest hpe hs hre]
  refine ⟨rfl, rfl, ?_⟩
  intro p hp
  simp only [List.mem_singleton] at hp
  subst hp
  cases hproc : env.cleanup.procExists <;>
    cases hpd : env.cleanup.procDeleteThrows <;>
      simp [runCleanup, hte, htd, hproc, hpd]

def env0remuxFail : Env := { env0 with remux := ⟨1, "boom"⟩ }

/-- C3 witness: the remux-failure behaviour at a concrete run whose
remux exits with code 1. -/
theorem remux_failure_no_update_cleanup_witness :
    (handlerUploadVideo cfg0 req0 env0remuxFail presign0).1 =
      .error (.remuxFailure 1 "boom") ∧
    (handlerUploadVideo cfg0 req0 env0remuxFail presign0).2.dbUpdates = [] ∧
    ∀ p ∈ (handlerUploadVideo cfg0 req0 env0remuxFail presign0).2.scratch,
      p ∈ (handlerUploadVideo cfg0 req0 env0remuxFail presign0).2.deletionsAttempted :=
  remux_failure_no_update_cleanup cfg0 req0 env0remuxFail video0 file0 presign0
    1920 1080 [] ⟨⟨"v1", rfl⟩, rfl, rfl, rfl, by decide, rfl⟩ rfl rfl
    (by decide) rfl rfl

/-- C6: each validation or authorization rejection — record not owned by
the caller, missing `video` file part, size above 1 GiB, disallowed
content type — throws its distinct error with the empty trace: no scratch
file created, no filesystem write, no object-store write, no record
update, and no deletion attempted (cleanup never ran). -/
theorem early_reject_no_writes :
    ∀ (cfg : ApiConfig) (req : UploadRequest) (env : Env)
      (presign : ApiConfig → String → Nat → String) (video : Video),
      (∃ vid, req.videoId = some vid) → env.lookup = some video →
      ((video.userID ≠ env.userID →
          handlerUploadVideo cfg req env presign =
            (.error (.userForbidden "You do not have permission to modify this video"),
              Trace.empty)) ∧
        (video.userID = env.userID → req.file = none →
          handlerUploadVideo cfg req env presign =
            (.error (.badRequest "No video file provided"), Trace.empty)) ∧
        (∀ file, video.userID = env.userID → req.file = some file →
          file.size > MAX_UPLOAD_SIZE →
          handlerUploadVideo cfg req env presign =
            (.error (.badRequest "Video file is too large (max 1 GB)"), Trace.empty)) ∧
        (∀ file, video.userID = env.userID → req.file = some file →
          file.size ≤ MAX_UPLOAD_SIZE →
          ALLOWED_THUMBNAIL_TYPES.contains file.mediaType = false →
          handlerUploadVideo cfg req env presign =
            (.error (.badRequest "Unsupported thumbnail file type"), Trace.empty))) := by
  intro cfg req env presign video hvid hl
  obtain ⟨vid, hvid⟩ := hvid
  refine ⟨?_, ?_, ?_, ?_⟩
  · intro hne
    simp only [handlerUploadVideo, hvid, hl]
    rw [if_pos hne]
  · intro he hf
    simp only [handlerUploadVideo, hvid, hl, hf]
    rw [if_neg (by simp [he])]
  · intro file he hf hsz
    simp only [handlerUploadVideo, hvid, hl, hf]
    rw [if_neg (by simp [he]), if_pos hsz]
  · intro file he hf hsz hct
    simp only [handlerUploadVideo, hvid, hl, hf]
    rw [if_neg (by simp [he]), if_neg (Nat.not_lt.mpr hsz),
      if_pos (by simp only [hct]; decide)]

def envWrongOwner : Env := { env0 with userID := "intruder" }

/-- C6 witness: a request for a record not owned by the caller is
rejected with the Forbidden error and the empty trace. -/
theorem early_reject_no_writes_witness :
    handlerUploadVideo cfg0 req0 envWrongOwner presign0 =
      (.error (.userForbidden "You do not have permission to modify this video"),
        Trace.empty) :=
  (early_reject_no_writes cfg0 req0 envWrongOwner presign0 video0
      ⟨"v1", rfl⟩ rfl).1 (by decide)

theorem successKey_ne_empty (cfg : ApiConfig) (env : Env) (file : ReqFile)
    (w h : Nat) : successKey cfg env file w h ≠ "" := by
  intro hk
  have hlen := congrArg String.length hk
  have h1 : ("/" : String).length = 1 := rfl
  have h0 : ("" : String).length = 0 := rfl
  simp only [successKey, String.length_append, h1, h0] at hlen
  omega

/-- C7: on a successful run the value handed to the record store is the
plain object key (persisted before signing), while the response carries
the record with its URL replaced by the signed URL computed from that key
with a TTL of exactly 300 seconds; the persisted value is never the
signed URL but always the plain key. -/
theorem success_persists_key_and_signs (cfg : ApiConfig) (req : UploadRequest)
    (env : Env) (video : Video) (file : ReqFile)
    (presign : ApiConfig → String → Nat → String)
    (w h : Nat) (rest : List (Nat × Nat))
    (hv : validUpload req env video file)
    (hpe : env.probe.exitCode = 0) (hs : env.probe.streams = (w, h) :: rest)
    (hre : env.remux.exitCode = 0) (hup : env.uploadOk = true) :
    (handlerUploadVideo cfg req env presign).2.dbUpdates =
      [{ video with videoURL := some (successKey cfg env file w h) }] ∧
    (handlerUploadVideo cfg req env presign).1 =
      .ok { video with videoURL := some (presign cfg (successKey cfg env file w h) 300) } := by
  rw [handler_valid_eq cfg req env video file presign hv,
    stagedRun_success_eq cfg env video file presign w h rest hpe hs hre hup]
  refine ⟨rfl, ?_⟩
  show Except.ok (dbVideoToSignedVideo cfg
      { video with videoURL := some (successKey cfg env file w h) } presign) = _
  rw [dbVideoToSignedVideo]
  simp only [if_neg (successKey_ne_empty cfg env file w h)]

/-- C7 witness: the persisted-key/signed-response split at the concrete
successful run. -/
theorem success_persists_key_and_signs_witness :
    (handlerUploadVideo cfg0 req0 env0 presign0).2.dbUpdates =
      [{ video0 with videoURL := some (successKey cfg0 env0 file0 1920 1080) }] ∧
    (handlerUploadVideo cfg0 req0 env0 presign0).1 =
      .ok { video0 with videoURL := some (presign0 cfg0 (successKey cfg0 env0 file0 1920 1080) 300) } :=
  success_persists_key_and_signs cfg0 req0 env0 video0 file0 presign0
    1920 1080 [] validUpload0 rfl rfl rfl rfl

/-- C10: on a successful run the single record update changes only the
stored video URL; the updated record's id, owner, thumbnail URL and all
remaining columns equal those of the record fetched at the start. -/
theorem success_frame_effect (cfg : ApiConfig) (req : UploadRequest)
    (env : Env) (video : Video) (file : ReqFile)
    (presign : ApiConfig → String → Nat → String)
    (w h : Nat) (rest : List (Nat × Nat))
    (hv : validUpload req env video file)
    (hpe : env.probe.exitCode = 0) (hs : env.probe.streams = (w, h) :: rest)
    (hre : env.remux.exitCode = 0) (hup : env.uploadOk = true) :
    (handlerUploadVideo cfg req env presign).2.dbUpdates =
      [{ video with videoURL := some (successKey cfg env file w h) }] ∧
    ∀ v ∈ (handlerUploadVideo cfg req env presign).2.dbUpdates,
      v.id = video.id ∧ v.userID = video.userID ∧
        v.thumbnailURL = video.thumbnailURL ∧ v.rest = video.rest := by
  rw [handler_valid_eq cfg req env video file presign hv,
    stagedRun_success_eq cfg env video file presign w h rest hpe hs hre hup]
  refine ⟨rfl, ?_⟩
  intro v hv2
  simp only [List.mem_singleton] at hv2
  subst hv2
  exact ⟨rfl, rfl, rfl, rfl⟩

/-- C10 witness: the frame property at the concrete successful run. -/
theorem success_frame_effect_witness :
    (handlerUploadVideo cfg0 req0 env0 presign0).2.dbUpdates =
      [{ video0 with videoURL := some (successKey cfg0 env0 file0 1920 1080) }] ∧
    ∀ v ∈ (handlerUploadVideo cfg0 req0 env0 presign0).2.dbUpdates,
      v.id = video0.id ∧ v.userID = video0.userID ∧
        v.thumbnailURL = video0.thumbnailURL ∧ v.rest = video0.rest :=
  success_frame_effect cfg0 req0 env0 video0 file0 presign0 1920 1080 []
    validUpload0 rfl rfl rfl rfl

theorem stagedRun_fst_cleanup_invariant (cfg : ApiConfig) (env : Env)
    (video : Video) (file : ReqFile)
    (presign : ApiConfig → String → Nat → String) (c : CleanupEnv) :
    (stagedRun cfg { env with cleanup := c } video file presign).1 =
      (stagedRun cfg env video file presign).1 := by
  simp only [stagedRun, tempPathOf, extOf]
  cases hg : getVideoAspectRatio env.probe with
  | error e => rfl
  | ok aspect =>
      cases hr : processVideoForFastStart
          (pathJoin cfg.assetsRoot
            (env.randomString ++ "." ++
              List.getD (jsSplitSlash file.mediaType) 1 "")) env.remux with
      | error pe => rfl
      | ok processedFilepath =>
          cases hu : env.uploadOk <;> rfl

theorem handler_fst_cleanup_invariant (cfg : ApiConfig) (req : UploadRequest)
    (env : Env) (presign : ApiConfig → String → Nat → String) (c : CleanupEnv) :
    (handlerUploadVideo cfg req { env with cleanup := c } presign).1 =
      (handlerUploadVideo cfg req env presign).1 := by
  cases hvid : req.videoId with
  | none => simp [handlerUploadVideo, hvid]
  | some vid =>
      cases hl : env.lookup with
      | none => simp [handlerUploadVideo, hvid, hl]
      | some video =>
          by_cases hown : video.userID = env.userID
          · cases hf : req.file with
            | none => simp [handlerUploadVideo, hvid, hl, hf, hown]
            | some file =>
                by_cases hsz : file.size > MAX_UPLOAD_SIZE
                · simp [handlerUploadVideo, hvid, hl, hf, hown, hsz]
                · by_cases hct : ALLOWED_THUMBNAIL_TYPES.contains file.mediaType = true
                  · have hctm : file.mediaType ∈ ALLOWED_THUMBNAIL_TYPES := by
                      simpa using hct
                    simp [handlerUploadVideo, hvid, hl, hf, hown, hsz, hctm]
                    exact stagedRun_fst_cleanup_invariant cfg env video file presign c
                  · have hctm : file.mediaType ∉ ALLOWED_THUMBNAIL_TYPES := by
                      simpa using hct
                    simp [handlerUploadVideo, hvid, hl, hf, hown, hsz, hctm]
          · simp [handlerUploadVideo, hvid, hl, hown]

/-- C9: the handler's result is a function of the pipeline body alone —
varying the cleanup environment (including any deletion failure) never
changes it — and on a run where the remux fails and the temp-file
deletion also throws, the propagated error is still the original remux
failure while the cleanup failure is merely logged. -/
theorem original_error_never_masked :
    (∀ (cfg : ApiConfig) (req : UploadRequest) (env : Env)
        (presign : ApiConfig → String → Nat → String) (c : CleanupEnv),
        (handlerUploadVideo cfg req { env with cleanup := c } presign).1 =
          (handlerUploadVideo cfg req env presign).1) ∧
    (∀ (cfg : ApiConfig) (req : UploadRequest) (env : Env) (video : Video)
        (file : ReqFile) (presign : ApiConfig → String → Nat → String)
        (w h : Nat) (rest : List (Nat × Nat)),
        validUpload req env video file →
        env.probe.exitCode = 0 → env.probe.streams = (w, h) :: rest →
        env.remux.exitCode ≠ 0 →
        env.cleanup.tempExists = true → env.cleanup.tempDeleteThrows = true →
        (handlerUploadVideo cfg req env presign).1 =
            .error (.remuxFailure env.remux.exitCode env.remux.stderr) ∧
          (handlerUploadVideo cfg req env presign).2.cleanupErrorLogged = true) := by
  refine ⟨handler_fst_cleanup_invariant, ?_⟩
  intro cfg req env video file presign w h rest hv hpe hs hre hte htd
  rw [handler_valid_eq cfg req env video file presign hv,
    stagedRun_remuxfail_eq cfg env video file presign w h rest hpe hs hre]
  exact ⟨rfl, by simp [runCleanup, hte, htd]⟩

def env0bothFail : Env :=
  { env0 with remux := ⟨1, "boom"⟩, cleanup := ⟨true, true, true, false⟩ }

/-- C9 witness: at a concrete run where the remux fails and the temp-file
deletion throws, the result is the remux failure and the cleanup failure
is logged. -/
theorem original_error_never_masked_witness :
    (handlerUploadVideo cfg0 req0 env0bothFail presign0).1 =
      .error (.remuxFailure 1 "boom") ∧
    (handlerUploadVideo cfg0 req0 env0bothFail presign0).2.cleanupErrorLogged = true :=
  original_error_never_masked.2 cfg0 req0 env0bothFail video0 file0 presign0
    1920 1080 [] ⟨⟨"v1", rfl⟩, rfl, rfl, rfl, by decide, rfl⟩ rfl rfl
    (by decide) rfl rfl

end Tubely
